import Mathlib

/-!
Verification of the registration core of the TodoApp backend
(`src/TodoApp/routers/auth.py` and `src/TodoApp/main.py`): the
`CreateUserRequest` payload model, the `get_db` session-scoped persistence
gateway, the bcrypt hashing policy and the `create_user` handler behind
`POST /auth`.
-/

namespace TodoApp

/-- The six-field registration payload declared by the pydantic model
`CreateUserRequest` in `src/TodoApp/routers/auth.py`: all six fields are
required strings. -/
structure CreateUserRequest where
  username : String
  email : String
  first_name : String
  last_name : String
  password : String
  role : String
deriving DecidableEq, Repr

/-- Modelled from the spec: the `Users` ORM row of `models.py`, a file of the
repository that is not under `src/`. Section 3 of the spec lists its fields:
username, email, first name, last name, role, hashed secret, active flag. -/
structure Users where
  username : String
  email : String
  first_name : String
  last_name : String
  role : String
  hashed_password : String
  is_active : Bool
deriving DecidableEq, Repr

/-- Modelled from the spec: the digest part of the hashing policy (section
4.3). The real transform is bcrypt, supplied by the external passlib library;
here it is modelled as a salt-keyed, length-preserving character transform,
which is all the stated properties depend on. -/
def digest (salt : Nat) (p : String) : String :=
  String.mk (p.data.map (fun c => Char.ofNat ((c.toNat + salt + 7) % 55296)))

/-- Modelled from the spec: `bcrypt_context.hash` (section 4.3): a salted,
versioned one-way hash with the algorithm identifier embedded in the output.
The per-call auto-generated salt is an explicit parameter. The output format
is: version prefix, salt field, separator, digest. -/
def bcrypt_hash (salt : Nat) (p : String) : String :=
  String.mk (("$2b$12$".data ++ List.replicate salt 'x') ++ '$' :: (digest salt p).data)

/-- Modelled from the spec: recover the embedded salt of a stored hash (the
salt is embedded in the output so that verification can recompute with it,
section 4.3). -/
def extract_salt (h : String) : Nat :=
  ((h.data.drop 7).takeWhile (fun c => c != '$')).length

/-- Modelled from the spec: the verification rule of the hashing policy
(sections 4.3 and 8): a stored hash verifies against a plaintext exactly when
re-hashing the plaintext with the salt embedded in the stored hash reproduces
the stored hash. -/
def bcrypt_verify (p h : String) : Bool :=
  h == bcrypt_hash (extract_salt h) p

/-- Modelled from the spec: the ORM session handed out by `SessionLocal`
(defined in `database.py`, a file of the repository that is not under
`src/`). `committed` is the content of the users table as committed;
`pending` holds rows added but not yet committed; `closeCount` counts the
calls to `close` made on this session. -/
structure Session where
  committed : List Users
  pending : List Users
  closeCount : Nat
deriving DecidableEq, Repr

/-- Modelled from the spec: the process-wide connection factory
`SessionLocal`: each request derives one fresh session from the store, with
no pending rows and a close count of zero. -/
def SessionLocal (store : List Users) : Session :=
  { committed := store, pending := [], closeCount := 0 }

/-- The persistence-failure taxonomy relevant to this core (section 7(b)):
a uniqueness violation on the username column. -/
inductive DbError where
  | integrityError
deriving DecidableEq, Repr

/-- `db.add(model)`: stage a row for insertion; nothing is committed yet. -/
def Session.add (db : Session) (u : Users) : Session :=
  { db with pending := db.pending ++ [u] }

/-- Does the committed users table already contain this username? -/
def usernameTaken (rows : List Users) (name : String) : Bool :=
  rows.any (fun r => r.username == name)

/-- Modelled from the spec: `db.commit()`: flush the pending rows into the
store; a uniqueness violation on username raises an integrity error and
commits nothing (sections 7(b) and 8). -/
def Session.commit (db : Session) : Except DbError Unit × Session :=
  if db.pending.any (fun u => usernameTaken db.committed u.username) then
    (Except.error DbError.integrityError, db)
  else
    (Except.ok (), { db with committed := db.committed ++ db.pending, pending := [] })

/-- Modelled from the spec: `db.close()`: release the session. Uncommitted
pending rows are discarded (rollback-on-uncommitted-exit, section 4.1); the
committed store is untouched; the close count records the release. -/
def Session.close (db : Session) : Session :=
  { db with pending := [], closeCount := db.closeCount + 1 }

/-- The `get_db` dependency of `src/TodoApp/routers/auth.py`: open a session
from the factory, yield it to the request body, and close it in a `finally`
block, so the close runs on every exit path. The body returns its outcome
(a normal value or a raised error) together with the session it leaves. -/
def get_db (store : List Users) (body : Session → Except DbError α × Session) :
    Except DbError α × Session :=
  let db := SessionLocal store
  let r := body db
  (r.1, r.2.close)

/-- The record built inside `create_user` (`src/TodoApp/routers/auth.py`):
every field is copied from the request, except that the plaintext password is
replaced by the output of the hashing policy and `is_active` is set true. -/
def create_user_model (req : CreateUserRequest) (salt : Nat) : Users :=
  { email := req.email
    username := req.username
    first_name := req.first_name
    last_name := req.last_name
    role := req.role
    hashed_password := bcrypt_hash salt req.password
    is_active := true }

/-- The body of the `create_user` handler: build the record, `db.add` it,
`db.commit`. The `return create_user_model` line is commented out in the
source, so the success value is `Unit`: the handler returns nothing. -/
def create_user (req : CreateUserRequest) (salt : Nat) (db : Session) :
    Except DbError Unit × Session :=
  let m := create_user_model req salt
  let db1 := db.add m
  db1.commit

/-- One `POST /auth` request body run under `get_db`: the outcome of the
handler and the committed store after the session has been closed. -/
def run_create_user (store : List Users) (req : CreateUserRequest) (salt : Nat) :
    Except DbError Unit × List Users :=
  let r := get_db store (create_user req salt)
  (r.1, r.2.committed)

/-- Modelled from the spec: the response mapping of the framework for
`POST /auth` (sections 6 and 7): success is signalled by status 201 with no
response body; an uncaught handler error surfaces as the framework-default
server error 500, with no body produced by this core. The result is
(status, response body, store). -/
def handle_create_user (store : List Users) (req : CreateUserRequest) (salt : Nat) :
    Nat × Option Users × List Users :=
  let r := run_create_user store req salt
  match r.1 with
  | Except.ok _ => (201, none, r.2)
  | Except.error _ => (500, none, r.2)

/-- Modelled from the spec: a raw request body before schema validation; a
field that is absent from the JSON object is `none` (section 7(a)). -/
structure RawPayload where
  username : Option String
  email : Option String
  first_name : Option String
  last_name : Option String
  password : Option String
  role : Option String
deriving DecidableEq, Repr

/-- Modelled from the spec: the schema validation the framework performs on
`CreateUserRequest` before the handler body runs (sections 4.2 and 7(a)):
each of the six fields must be present; a missing field is a client error
422. No content validation (non-emptiness, format, strength, role
membership) is declared. -/
def validate (p : RawPayload) : Except Nat CreateUserRequest :=
  match p.username, p.email, p.first_name, p.last_name, p.password, p.role with
  | some u, some e, some f, some l, some pw, some r =>
      Except.ok { username := u, email := e, first_name := f, last_name := l,
                  password := pw, role := r }
  | _, _, _, _, _, _ => Except.error 422

/-- The full `POST /auth` endpoint: schema validation first; on failure the
handler never runs and the store is untouched; otherwise the handler runs
under `get_db`. The result is (status, store). -/
def post_auth (store : List Users) (p : RawPayload) (salt : Nat) : Nat × List Users :=
  match validate p with
  | Except.error c => (c, store)
  | Except.ok req =>
      let h := handle_create_user store req salt
      (h.1, h.2.2)

/-- The concrete payload of the acceptance scenario in section 8. -/
def alice_request : CreateUserRequest :=
  { username := "alice", email := "a@x.com", first_name := "A", last_name := "L",
    password := "secret123", role := "user" }

lemma bcrypt_hash_length (salt : Nat) (p : String) :
    (bcrypt_hash salt p).length = 8 + salt + p.length := by
  show (("$2b$12$".data ++ List.replicate salt 'x') ++ '$' :: (digest salt p).data).length
      = 8 + salt + p.length
  have hd : ((digest salt p).data).length = p.length := by
    show (p.data.map _).length = p.length
    rw [List.length_map]
    rfl
  simp only [List.length_append, List.length_cons, List.length_replicate, hd,
    List.length_nil]
  omega

lemma bcrypt_hash_ne (salt : Nat) (p : String) : bcrypt_hash salt p ≠ p := by
  intro e
  have h := congrArg String.length e
  rw [bcrypt_hash_length] at h
  omega

lemma takeWhile_salt_field (s : Nat) (rest : List Char) :
    (List.replicate s 'x' ++ '$' :: rest).takeWhile (fun c => c != '$') =
      List.replicate s 'x' := by
  induction s with
  | zero => simp [List.takeWhile]
  | succ n ih => simp [List.replicate, List.takeWhile_cons, ih]

lemma extract_salt_bcrypt (s : Nat) (p : String) :
    extract_salt (bcrypt_hash s p) = s := by
  have h1 : (bcrypt_hash s p).data
      = "$2b$12$".data ++ (List.replicate s 'x' ++ '$' :: (digest s p).data) := by
    simp [bcrypt_hash, List.append_assoc]
  unfold extract_salt
  rw [h1, show (7 : Nat) = ("$2b$12$".data).length from rfl, List.drop_left,
    takeWhile_salt_field]
  exact List.length_replicate s 'x'

/-- C1: for every valid registration payload and per-call salt, the record
handed to the persistence gateway stores, in its hashed-secret field, the
output of the hashing policy applied to the submitted plaintext password,
and that stored value never equals the submitted plaintext. -/
theorem hashed_secret_is_policy_output_never_plaintext
    (req : CreateUserRequest) (salt : Nat) :
    (create_user_model req salt).hashed_password = bcrypt_hash salt req.password ∧
    (create_user_model req salt).hashed_password ≠ req.password :=
  ⟨rfl, bcrypt_hash_ne salt req.password⟩

/-- C2: under `get_db` the session is released exactly once on every exit
path: for every store and every request body that does not itself close the
session — whether it returns normally, raises an error, or does nothing —
the close count of the session after the request is exactly 1. -/
theorem session_released_exactly_once (store : List Users)
    (body : Session → Except DbError α × Session)
    (h : ∀ db, ((body db).2).closeCount = db.closeCount) :
    ((get_db store body).2).closeCount = 1 := by
  simp [get_db, Session.close, h, SessionLocal]

/-- Witness for C2 at a concrete input: a body that returns normally without
touching the close count, run on the empty store. -/
theorem session_released_exactly_once_witness :
    (∀ db : Session,
      (((fun db => ((Except.ok () : Except DbError Unit), db)) db).2).closeCount
        = db.closeCount) ∧
    ((get_db [] (fun db => ((Except.ok () : Except DbError Unit), db))).2).closeCount = 1 :=
  ⟨fun _ => rfl, session_released_exactly_once [] _ (fun _ => rfl)⟩

/-- C4: for every valid registration payload and salt, the created user
record has its active flag set to true. -/
theorem created_user_is_active (req : CreateUserRequest) (salt : Nat) :
    (create_user_model req salt).is_active = true := rfl

/-- C3: for the section-8 payload (alice), a successful call on an empty
store returns status 201 and leaves the store with exactly one new row whose
username is "alice", whose email, first name, last name and role equal the
submitted values, and whose hashed secret is not the plaintext
"secret123" — for every per-call salt. -/
theorem alice_registration_row (salt : Nat) :
    (handle_create_user [] alice_request salt).1 = 201 ∧
    (handle_create_user [] alice_request salt).2.2 =
      [create_user_model alice_request salt] ∧
    (create_user_model alice_request salt).username = "alice" ∧
    (create_user_model alice_request salt).email = "a@x.com" ∧
    (create_user_model alice_request salt).first_name = "A" ∧
    (create_user_model alice_request salt).last_name = "L" ∧
    (create_user_model alice_request salt).role = "user" ∧
    (create_user_model alice_request salt).hashed_password ≠ "secret123" := by
  refine ⟨?_, ?_, rfl, rfl, rfl, rfl, rfl, bcrypt_hash_ne salt "secret123"⟩ <;>
    simp [handle_create_user, run_create_user, get_db, create_user, Session.add,
      Session.commit, usernameTaken, SessionLocal, Session.close]

/-- C5: for every plaintext and any two distinct per-call salts, the hashing
policy produces two different output values, while both outputs verify
against that plaintext under the verification rule of the policy. -/
theorem salt_uniqueness_and_verification (p : String) (s1 s2 : Nat)
    (h : s1 ≠ s2) :
    bcrypt_hash s1 p ≠ bcrypt_hash s2 p ∧
    bcrypt_verify p (bcrypt_hash s1 p) = true ∧
    bcrypt_verify p (bcrypt_hash s2 p) = true := by
  refine ⟨?_, ?_, ?_⟩
  · intro e
    apply h
    have h2 := congrArg extract_salt e
    rwa [extract_salt_bcrypt, extract_salt_bcrypt] at h2
  · simp [bcrypt_verify, extract_salt_bcrypt]
  · simp [bcrypt_verify, extract_salt_bcrypt]

/-- Witness for C5 at a concrete input: plaintext "secret123" hashed with
the distinct salts 0 and 1. -/
theorem salt_uniqueness_and_verification_witness :
    (0 : Nat) ≠ 1 ∧
    (bcrypt_hash 0 "secret123" ≠ bcrypt_hash 1 "secret123" ∧
      bcrypt_verify "secret123" (bcrypt_hash 0 "secret123") = true ∧
      bcrypt_verify "secret123" (bcrypt_hash 1 "secret123") = true) :=
  ⟨by decide, salt_uniqueness_and_verification "secret123" 0 1 (by decide)⟩

/-- C6: for every payload and pair of per-call salts, starting from an empty
store, the first registration commits (outcome ok) and the second
registration with the same username fails at the persistence layer with a
uniqueness violation; the error propagates out of the handler as a server
error, and the store after the second call equals the store after the first
call — no duplicate row is committed. -/
theorem duplicate_username_second_call_fails (req : CreateUserRequest)
    (s1 s2 : Nat) :
    (run_create_user [] req s1).1 = Except.ok () ∧
    (run_create_user (run_create_user [] req s1).2 req s2).1 =
      Except.error DbError.integrityError ∧
    (handle_create_user (run_create_user [] req s1).2 req s2).1 = 500 ∧
    (run_create_user (run_create_user [] req s1).2 req s2).2 =
      (run_create_user [] req s1).2 := by
  refine ⟨?_, ?_, ?_, ?_⟩ <;>
    simp [handle_create_user, run_create_user, get_db, create_user, Session.add,
      Session.commit, usernameTaken, SessionLocal, Session.close, create_user_model]

/-- A concrete raw payload with every field present except `password`. -/
def missing_password_payload : RawPayload :=
  { username := some "alice", email := some "a@x.com", first_name := some "A",
    last_name := some "L", password := none, role := some "user" }

/-- C7: for every request payload missing any of the six required fields —
in particular the password — the call fails with client error 422 before the
handler body runs: no record is constructed, no hashing occurs, and the
store is unchanged. -/
theorem missing_field_client_error (store : List Users) (p : RawPayload)
    (salt : Nat)
    (h : p.username = none ∨ p.email = none ∨ p.first_name = none ∨
      p.last_name = none ∨ p.password = none ∨ p.role = none) :
    (post_auth store p salt).1 = 422 ∧ (post_auth store p salt).2 = store := by
  obtain ⟨u, e, f, l, pw, r⟩ := p
  simp only [post_auth, validate]
  rcases u <;> rcases e <;> rcases f <;> rcases l <;> rcases pw <;> rcases r <;>
    simp_all

/-- Witness for C7 at a concrete input: the alice payload with the password
field absent, on the empty store. -/
theorem missing_field_client_error_witness :
    (missing_password_payload.username = none ∨
      missing_password_payload.email = none ∨
      missing_password_payload.first_name = none ∨
      missing_password_payload.last_name = none ∨
      missing_password_payload.password = none ∨
      missing_password_payload.role = none) ∧
    ((post_auth [] missing_password_payload 0).1 = 422 ∧
      (post_auth [] missing_password_payload 0).2 = []) :=
  ⟨by simp [missing_password_payload],
    missing_field_client_error [] missing_password_payload 0
      (by simp [missing_password_payload])⟩

/-- C8: on every successful registration call the handler hands back no
value (the response body is `none`; the success value of the handler body is
the unit value, since the return of the created record is commented out),
and success is signalled only through the 201 status code. -/
theorem success_no_body_only_status_201 (store : List Users)
    (req : CreateUserRequest) (salt : Nat)
    (h : (run_create_user store req salt).1 = Except.ok ()) :
    (handle_create_user store req salt).1 = 201 ∧
    (handle_create_user store req salt).2.1 = none := by
  simp only [handle_create_user]
  rw [h]
  exact ⟨rfl, rfl⟩

/-- Witness for C8 at a concrete input: the alice registration on the empty
store succeeds, returns status 201 and no body. -/
theorem success_no_body_only_status_201_witness :
    (run_create_user [] alice_request 0).1 = Except.ok () ∧
    ((handle_create_user [] alice_request 0).1 = 201 ∧
      (handle_create_user [] alice_request 0).2.1 = none) :=
  ⟨by simp [run_create_user, get_db, create_user, Session.add, Session.commit,
      usernameTaken, SessionLocal],
    success_no_body_only_status_201 [] alice_request 0
      (by simp [run_create_user, get_db, create_user, Session.add, Session.commit,
        usernameTaken, SessionLocal])⟩

/-- C9: for every payload whose six fields are present as strings —
arbitrary strings, empty ones included — validation accepts it and the
handler proceeds to hash and insert like any other payload: on an empty
store the call yields status 201 and exactly one new row built from the
submitted values, the password hashed. No content validation
(non-emptiness, email format, password strength, role membership) is
applied anywhere. -/
theorem every_six_string_payload_accepted (u e f l pw r : String) (salt : Nat) :
    validate
      { username := some u, email := some e, first_name := some f,
        last_name := some l, password := some pw, role := some r } =
      Except.ok
        { username := u, email := e, first_name := f, last_name := l,
          password := pw, role := r } ∧
    (post_auth []
      { username := some u, email := some e, first_name := some f,
        last_name := some l, password := some pw, role := some r } salt).1 = 201 ∧
    (post_auth []
      { username := some u, email := some e, first_name := some f,
        last_name := some l, password := some pw, role := some r } salt).2 =
      [create_user_model
        { username := u, email := e, first_name := f, last_name := l,
          password := pw, role := r } salt] := by
  refine ⟨rfl, ?_, ?_⟩ <;>
    simp [post_auth, validate, handle_create_user, run_create_user, get_db,
      create_user, Session.add, Session.commit, usernameTaken, SessionLocal,
      Session.close]

/-- C10: the persistence gateway itself never commits: the release step only
closes the session, so for every body that never commits (its committed
store on exit equals the one on entry — for example a handler that raises
during record construction or hashing, before reaching `db.commit`), the
pending inserts are discarded on close and the store after `get_db` is
exactly the store before it. -/
theorem gateway_release_never_commits (store : List Users)
    (body : Session → Except DbError α × Session)
    (h : ∀ db, ((body db).2).committed = db.committed) :
    ((get_db store body).2).committed = store ∧
    ((get_db store body).2).pending = [] := by
  constructor
  · simp [get_db, Session.close, h, SessionLocal]
  · simp [get_db, Session.close]

/-- A body that stages the alice row and then raises, before any commit. -/
def aborted_body : Session → Except DbError Unit × Session :=
  fun db => (Except.error DbError.integrityError,
    db.add (create_user_model alice_request 0))

/-- Witness for C10 at a concrete input: a body that adds a row and raises
before committing leaves the empty store empty and no pending row behind. -/
theorem gateway_release_never_commits_witness :
    (∀ db : Session, ((aborted_body db).2).committed = db.committed) ∧
    (((get_db [] aborted_body).2).committed = [] ∧
      ((get_db [] aborted_body).2).pending = []) :=
  ⟨fun _ => rfl, gateway_release_never_commits [] aborted_body (fun _ => rfl)⟩

end TodoApp
